import Mathlib

/-!
Shallow embedding of the core logic of the `hng-backend-stage1-stringanalyzer`
repository (FastAPI string-analysis service) and verification of its
specification claims.

Embedded components:
* `analyzeString`        — `src/app/utils.py`, `analyze_string`
* `text_to_number`,
  `extract_number`,
  `parse_natural_language` — `src/app/filters.py`
* `filter_strings`       — `src/app/crud.py`, `filter_strings` (validation and
  in-memory evaluation of the SQL predicate over an explicit record list)

Strings are modelled as `List Char`.  Python's `\s`, `\d`, `[a-zA-Z]`,
`str.lower`, `str.strip`, `str.split` are modelled over their ASCII ranges
(every input appearing in the claims is ASCII).  The SHA-256 hash field of the
analyzer is an external library call (`hashlib`) and is outside every claim, so
it is not modelled.  Regex searches (`re.search`) are modelled by hand-rolled
leftmost scanners that are faithful to the concrete patterns in
`src/app/filters.py`, including the backtracking behaviour of their optional
groups.
-/

namespace StringAnalyzer

/-- ASCII whitespace, as used by Python's `str.strip`/`str.split` and `\s`. -/
def pySpace (c : Char) : Bool :=
  c = ' ' || c = '\t' || c = '\n' || c = '\r' || c = '\x0b' || c = '\x0c'

/-- Python `str.strip()`: drop leading and trailing whitespace. -/
def pyStrip (l : List Char) : List Char :=
  ((l.dropWhile pySpace).reverse.dropWhile pySpace).reverse

/-- Accumulator-style worker for Python `str.split()` (split on whitespace
runs, dropping empty tokens).  `acc` holds the current token reversed. -/
def pySplitAux : List Char → List Char → List (List Char)
  | [], acc => if acc.isEmpty then [] else [acc.reverse]
  | c :: cs, acc =>
    if pySpace c then
      if acc.isEmpty then pySplitAux cs [] else acc.reverse :: pySplitAux cs []
    else pySplitAux cs (c :: acc)

/-- Python `str.split()` with no separator argument. -/
def pySplit (l : List Char) : List (List Char) :=
  pySplitAux l []

/-- Spec-style token counter: the number of maximal whitespace-delimited
non-empty tokens.  `inTok` records whether the previous character was
non-whitespace. -/
def countTokensAux : Bool → List Char → Nat
  | _, [] => 0
  | inTok, c :: cs =>
    if pySpace c then countTokensAux false cs
    else (if inTok then 0 else 1) + countTokensAux true cs

/-- The number of maximal whitespace-delimited non-empty tokens of a string. -/
def countTokens (l : List Char) : Nat :=
  countTokensAux false l

/-- The character class `[a-z0-9]` used by the palindrome reduction
(`re.sub(r'[^a-z0-9]', '', lower_value)` keeps exactly these). -/
def isLowerAlnum (c : Char) : Bool :=
  ('a' ≤ c && c ≤ 'z') || ('0' ≤ c && c ≤ '9')

/-- The reduced form of a string as described by the spec: trimmed,
lowercased, all characters outside `[a-z0-9]` removed. -/
def reducedForm (s : List Char) : List Char :=
  ((pyStrip s).map Char.toLower).filter isLowerAlnum

/-- The record produced by `analyze_string` (`src/app/utils.py`).  The
`sha256_hash` field is an external `hashlib` call and is not modelled; the
`character_frequency_map` dict is modelled as an association list from each
distinct character of the trimmed string to its occurrence count. -/
structure Analysis where
  length : Nat
  is_palindrome : Bool
  unique_characters : Nat
  word_count : Nat
  character_frequency_map : List (Char × Nat)
deriving Repr, DecidableEq

/-- `analyze_string` from `src/app/utils.py`:
strip, lowercase, palindrome test on the `[a-z0-9]`-reduction, distinct
character count, whitespace word count, character frequency map. -/
def analyzeString (value : List Char) : Analysis :=
  let value_clean := pyStrip value
  let lower_value := value_clean.map Char.toLower
  let alphanumeric := lower_value.filter isLowerAlnum
  { length := value_clean.length
    is_palindrome := !alphanumeric.isEmpty && alphanumeric == alphanumeric.reverse
    unique_characters := value_clean.dedup.length
    word_count := if value_clean.isEmpty then 0 else (pySplit value_clean).length
    character_frequency_map := value_clean.dedup.map fun c => (c, value_clean.count c) }

/-- Consume a literal character sequence from the front of the input,
returning the rest on success. -/
def dropLit : List Char → List Char → Option (List Char)
  | [], cs => some cs
  | _ :: _, [] => none
  | l :: ls, c :: cs => if c = l then dropLit ls cs else none

/-- Does `pat` occur as a contiguous run inside `l`?  This models the success
of `re.search` on a pattern that is a plain literal. -/
def containsSeq (pat : List Char) : List Char → Bool
  | [] => (dropLit pat []).isSome
  | c :: cs => (dropLit pat (c :: cs)).isSome || containsSeq pat cs

/-- Consume `\s+` (one or more whitespace characters, maximal). -/
def dropWs1 (cs : List Char) : Option (List Char) :=
  match cs with
  | [] => none
  | c :: rest => if pySpace c then some (rest.dropWhile pySpace) else none

/-- Consume `\s+`, also returning the whitespace that was matched (needed when
the surrounding group's matched text `group(0)` is used afterwards). -/
def splitWs1 (cs : List Char) : Option (List Char × List Char) :=
  match cs with
  | [] => none
  | c :: rest =>
    if pySpace c then some (c :: rest.takeWhile pySpace, rest.dropWhile pySpace)
    else none

/-- Numeric value of a digit run, as Python's `int` on a digit string. -/
def digitsToNat (ds : List Char) : Nat :=
  ds.foldl (fun a c => a * 10 + (c.toNat - '0'.toNat)) 0

/-- Consume `(\d+)` (one or more digits, maximal), returning the digit run and
the rest. -/
def takeDigits1 (cs : List Char) : Option (List Char × List Char) :=
  let ds := cs.takeWhile Char.isDigit
  if ds.isEmpty then none else some (ds, cs.drop ds.length)

/-- Try a pattern at every start position, left to right: the leftmost-match
discipline of `re.search`. -/
def reSearch (p : List Char → Option α) : List Char → Option α
  | [] => p []
  | c :: cs =>
    match p (c :: cs) with
    | some r => some r
    | none => reSearch p cs

/-- First success of `f` over a list, in order.  Models an ordered regex
alternation whose branches include everything to their right (full
backtracking across the alternatives). -/
def firstSome (f : β → Option α) : List β → Option α
  | [] => none
  | b :: bs =>
    match f b with
    | some r => some r
    | none => firstSome f bs

/-- Consume one optional literal character (a greedy `x?`). -/
def dropOptChar (g : Char) (cs : List Char) : List Char :=
  match cs with
  | c :: rest => if c = g then rest else cs
  | [] => cs

/-- The `NUMBER_WORDS` lexicon of `src/app/filters.py`. -/
def NUMBER_WORDS : List (List Char × Nat) :=
  [("zero".toList, 0), ("one".toList, 1), ("two".toList, 2), ("three".toList, 3),
   ("four".toList, 4), ("five".toList, 5), ("six".toList, 6), ("seven".toList, 7),
   ("eight".toList, 8), ("nine".toList, 9), ("ten".toList, 10),
   ("eleven".toList, 11), ("twelve".toList, 12), ("thirteen".toList, 13),
   ("fourteen".toList, 14), ("fifteen".toList, 15), ("sixteen".toList, 16),
   ("seventeen".toList, 17), ("eighteen".toList, 18), ("nineteen".toList, 19),
   ("twenty".toList, 20), ("thirty".toList, 30), ("forty".toList, 40),
   ("fifty".toList, 50), ("sixty".toList, 60), ("seventy".toList, 70),
   ("eighty".toList, 80), ("ninety".toList, 90),
   ("hundred".toList, 100), ("thousand".toList, 1000)]

/-- Python `word in NUMBER_WORDS` / `NUMBER_WORDS[word]`. -/
def lookupNumberWord (w : List Char) : Option Nat :=
  (NUMBER_WORDS.find? fun p => p.1 == w).map Prod.snd

/-- First run of digits anywhere in the text (`re.search(r'\d+', text)`). -/
def findDigitRun : List Char → Option (List Char)
  | [] => none
  | c :: cs =>
    if c.isDigit then some ((c :: cs).takeWhile Char.isDigit)
    else findDigitRun cs

/-- `extract_number` from `src/app/filters.py`: first digit run if any,
otherwise the first whitespace-separated word found in `NUMBER_WORDS`. -/
def extract_number (text : List Char) : Option Nat :=
  match findDigitRun text with
  | some ds => some (digitsToNat ds)
  | none => firstSome lookupNumberWord (pySplit (text.map Char.toLower))

/-- Python `str.isdigit` restricted to ASCII: non-empty and all digits. -/
def pyIsDigitStr (l : List Char) : Bool :=
  !l.isEmpty && l.all Char.isDigit

/-- Python `text.replace(' and ', ' ')`: left-to-right, non-overlapping. -/
def replaceAnd : List Char → List Char
  | ' ' :: 'a' :: 'n' :: 'd' :: ' ' :: rest => ' ' :: replaceAnd rest
  | c :: cs => c :: replaceAnd cs
  | [] => []

/-- `text_to_number` from `src/app/filters.py`: digit strings first, then a
direct lexicon hit, then the compound accumulation over
`text.replace('-', ' ').replace(' and ', ' ').split()` with `current`
multiplied and flushed into `result` at scale words (value ≥ 100). -/
def text_to_number (text : List Char) : Nat :=
  if pyIsDigitStr text then digitsToNat text
  else
    let t := pyStrip (text.map Char.toLower)
    match lookupNumberWord t with
    | some n => n
    | none =>
      let words := pySplit (replaceAnd (t.map fun c => if c = '-' then ' ' else c))
      let rc := words.foldl
        (fun (acc : Nat × Nat) w =>
          match lookupNumberWord w with
          | some num =>
            if 100 ≤ num then (acc.1 + acc.2 * num, 0) else (acc.1, acc.2 + num)
          | none => acc)
        (0, 0)
      rc.1 + rc.2

/-- The alternation of the second branch of the `word_count` pattern:
`single|one|two|...|twenty`, in the order written in `PATTERNS`. -/
def wordCountNumberAlts : List (List Char) :=
  ["single".toList, "one".toList, "two".toList, "three".toList, "four".toList,
   "five".toList, "six".toList, "seven".toList, "eight".toList, "nine".toList,
   "ten".toList, "eleven".toList, "twelve".toList, "thirteen".toList,
   "fourteen".toList, "fifteen".toList, "sixteen".toList, "seventeen".toList,
   "eighteen".toList, "nineteen".toList, "twenty".toList]

/-- One position of `PATTERNS['word_count']`:
`(\d+)\s*(?:word|words?)|(?:single|...|twenty)\s+words?`.
Returns the matched text `group(0)` (which always ends at `"word"`, since the
alternation `word|words?` commits to its first branch). -/
def tryWordCount (cs : List Char) : Option (List Char) :=
  let branch1 : Option (List Char) :=
    match takeDigits1 cs with
    | none => none
    | some (ds, r1) =>
      let wsRun := r1.takeWhile pySpace
      match dropLit "word".toList (r1.dropWhile pySpace) with
      | some _ => some (ds ++ wsRun ++ "word".toList)
      | none => none
  match branch1 with
  | some g => some g
  | none =>
    firstSome
      (fun w =>
        match dropLit w cs with
        | none => none
        | some r1 =>
          match splitWs1 r1 with
          | none => none
          | some (ws, r2) =>
            match dropLit "word".toList r2 with
            | some _ => some (w ++ ws ++ "word".toList)
            | none => none)
      wordCountNumberAlts

/-- Leftmost match of the `word_count` pattern, returning `group(0)`. -/
def scanWordCount (q : List Char) : Option (List Char) :=
  reSearch tryWordCount q

/-- One position of `PATTERNS['length_gt']`:
`(?:longer|greater|more)\s+than\s+(\d+)`, returning the captured number. -/
def tryLengthGt (cs : List Char) : Option Nat :=
  match firstSome (fun w => dropLit w cs)
      ["longer".toList, "greater".toList, "more".toList] with
  | none => none
  | some r1 =>
    match dropWs1 r1 with
    | none => none
    | some r2 =>
      match dropLit "than".toList r2 with
      | none => none
      | some r3 =>
        match dropWs1 r3 with
        | none => none
        | some r4 => (takeDigits1 r4).map fun p => digitsToNat p.1

/-- Leftmost match of `PATTERNS['length_gt']`. -/
def scanLengthGt (q : List Char) : Option Nat :=
  reSearch tryLengthGt q

/-- One position of `PATTERNS['length_lt']`:
`(?:shorter|less)\s+than\s+(\d+)`. -/
def tryLengthLt (cs : List Char) : Option Nat :=
  match firstSome (fun w => dropLit w cs) ["shorter".toList, "less".toList] with
  | none => none
  | some r1 =>
    match dropWs1 r1 with
    | none => none
    | some r2 =>
      match dropLit "than".toList r2 with
      | none => none
      | some r3 =>
        match dropWs1 r3 with
        | none => none
        | some r4 => (takeDigits1 r4).map fun p => digitsToNat p.1

/-- Leftmost match of `PATTERNS['length_lt']`. -/
def scanLengthLt (q : List Char) : Option Nat :=
  reSearch tryLengthLt q

/-- One position of `PATTERNS['length_eq']`:
`(?:exactly|precisely|of)\s+(\d+)\s+(?:characters?|letters?)`. -/
def tryLengthEq (cs : List Char) : Option Nat :=
  match firstSome (fun w => dropLit w cs)
      ["exactly".toList, "precisely".toList, "of".toList] with
  | none => none
  | some r1 =>
    match dropWs1 r1 with
    | none => none
    | some r2 =>
      match takeDigits1 r2 with
      | none => none
      | some (ds, r3) =>
        match dropWs1 r3 with
        | none => none
        | some r4 =>
          match dropLit "character".toList r4 with
          | some _ => some (digitsToNat ds)
          | none =>
            match dropLit "letter".toList r4 with
            | some _ => some (digitsToNat ds)
            | none => none

/-- Leftmost match of `PATTERNS['length_eq']`. -/
def scanLengthEq (q : List Char) : Option Nat :=
  reSearch tryLengthEq q

/-- The tail `(?:letter\s+)?([a-zA-Z])` of the containment pattern, with the
backtracking of the greedy optional group: consuming `letter\s+` is preferred,
but if no letter follows, the optional group is retried as empty. -/
def tryLetterTail (cs : List Char) : Option Char :=
  let direct : List Char → Option Char := fun l =>
    match l with
    | c :: _ => if c.isAlpha then some c else none
    | [] => none
  match (dropLit "letter".toList cs).bind dropWs1 with
  | some rest =>
    match direct rest with
    | some c => some c
    | none => direct cs
  | none => direct cs

/-- The tail `(?:the\s+)?(?:letter\s+)?([a-zA-Z])` of the containment
pattern, again with greedy-optional backtracking. -/
def tryTheTail (cs : List Char) : Option Char :=
  match (dropLit "the".toList cs).bind dropWs1 with
  | some rest =>
    match tryLetterTail rest with
    | some c => some c
    | none => tryLetterTail cs
  | none => tryLetterTail cs

/-- The verb alternation `(?:containing?|with|that has|having|includes?)` of
`PATTERNS['contains_char']`.  The alternatives start with pairwise distinct
characters, and the optional trailing `g`/`s` is forced whenever present
(the following `\s+` can never match it), so a committed scan is faithful. -/
def tryContainsVerb (cs : List Char) : Option (List Char) :=
  match dropLit "containin".toList cs with
  | some r => some (dropOptChar 'g' r)
  | none =>
    match dropLit "with".toList cs with
    | some r => some r
    | none =>
      match dropLit "that has".toList cs with
      | some r => some r
      | none =>
        match dropLit "having".toList cs with
        | some r => some r
        | none =>
          match dropLit "include".toList cs with
          | some r => some (dropOptChar 's' r)
          | none => none

/-- One position of `PATTERNS['contains_char']`. -/
def tryContainsChar (cs : List Char) : Option Char :=
  match tryContainsVerb cs with
  | none => none
  | some r1 =>
    match dropWs1 r1 with
    | none => none
    | some r2 => tryTheTail r2

/-- Leftmost match of `PATTERNS['contains_char']`, returning the captured
letter. -/
def scanContainsChar (q : List Char) : Option Char :=
  reSearch tryContainsChar q

/-- Success of `re.search(PATTERNS['palindrome'], q)`:
the literal `palindromic` or `palindrome` occurs in `q`. -/
def hasPalindromeWord (q : List Char) : Bool :=
  containsSeq "palindromic".toList q || containsSeq "palindrome".toList q

/-- Success of `re.search(r'first\s+vowel', q)` (or `last\s+vowel`). -/
def hasVowelPhrase (w : List Char) (q : List Char) : Bool :=
  (reSearch
    (fun cs =>
      match dropLit w cs with
      | none => none
      | some r1 =>
        match dropWs1 r1 with
        | none => none
        | some r2 => dropLit "vowel".toList r2)
    q).isSome

/-- The filter dictionary built by `parse_natural_language`.  The parser only
ever writes these five keys, so the Python dict is modelled as a record of
optional fields (`none` = key absent). -/
structure Filters where
  is_palindrome : Option Bool
  word_count : Option Nat
  min_length : Option Int
  max_length : Option Int
  contains_character : Option Char
deriving Repr, DecidableEq

/-- The empty filter dictionary. -/
def Filters.empty : Filters :=
  ⟨none, none, none, none, none⟩

/-- Errors raised by `parse_natural_language` (both are `ValueError` in
Python; the spec calls the second `UnparseableQuery`). -/
inductive ParseError where
  | emptyQuery
  | unparseable
deriving Repr, DecidableEq

/-- Rule 1: presence of `palindromic`/`palindrome` sets `is_palindrome`. -/
def applyPalindrome (q : List Char) (f : Filters) : Filters :=
  if hasPalindromeWord q then { f with is_palindrome := some true } else f

/-- Rule 2: a `word_count` pattern match feeds its `group(0)` to
`extract_number`; the key is set only when a number is extracted. -/
def applyWordCount (q : List Char) (f : Filters) : Filters :=
  match scanWordCount q with
  | some g0 =>
    match extract_number g0 with
    | some n => { f with word_count := some n }
    | none => f
  | none => f

/-- Rule 3: `longer|greater|more than N` sets `min_length = N + 1`. -/
def applyLengthGt (q : List Char) (f : Filters) : Filters :=
  match scanLengthGt q with
  | some n => { f with min_length := some ((n : Int) + 1) }
  | none => f

/-- Rule 4: `shorter|less than N` sets `max_length = N - 1`. -/
def applyLengthLt (q : List Char) (f : Filters) : Filters :=
  match scanLengthLt q with
  | some n => { f with max_length := some ((n : Int) - 1) }
  | none => f

/-- Rule 5: `exactly|precisely|of N characters|letters` sets both bounds. -/
def applyLengthEq (q : List Char) (f : Filters) : Filters :=
  match scanLengthEq q with
  | some n => { f with min_length := some (n : Int), max_length := some (n : Int) }
  | none => f

/-- Rule 6: the containment pattern sets `contains_character` (lowercased). -/
def applyContainsChar (q : List Char) (f : Filters) : Filters :=
  match scanContainsChar q with
  | some c => { f with contains_character := some c.toLower }
  | none => f

/-- Rules 7/8: `first vowel` sets `'a'`, otherwise `last vowel` sets `'u'`
(an `if`/`elif` pair in the source). -/
def applyVowelRules (q : List Char) (f : Filters) : Filters :=
  if hasVowelPhrase "first".toList q then { f with contains_character := some 'a' }
  else if hasVowelPhrase "last".toList q then { f with contains_character := some 'u' }
  else f

/-- The filter dictionary accumulated by the sequential rule checks of
`parse_natural_language`, in source order. -/
def parsedFilters (q : List Char) : Filters :=
  applyVowelRules q (applyContainsChar q (applyLengthEq q (applyLengthLt q
    (applyLengthGt q (applyWordCount q (applyPalindrome q Filters.empty))))))

/-- The preprocessing `query = query.lower().strip()` of
`parse_natural_language`. -/
def normQuery (query : List Char) : List Char :=
  pyStrip (query.map Char.toLower)

/-- `parse_natural_language` from `src/app/filters.py`: reject an empty
query, lowercase and strip, run the rules in order, and fail with the
unparseable-query `ValueError` when no key was set. -/
def parse_natural_language (query : List Char) : Except ParseError Filters :=
  if query.isEmpty then .error .emptyQuery
  else if parsedFilters (normQuery query) = Filters.empty then .error .unparseable
  else .ok (parsedFilters (normQuery query))

/-- The stored record (`AnalyzedString` in `src/app/models.py`), restricted
to the columns that `filter_strings` reads.  Integer columns are `Int`
(SQL integers), matching the signed comparisons in the validation code. -/
structure StoredString where
  value : List Char
  length : Int
  is_palindrome : Bool
  word_count : Int
deriving Repr, DecidableEq

/-- Python truthiness test `o is not None and o < 0` for the validation of
`min_length` / `max_length` / `word_count` in `crud.filter_strings`. -/
def optNeg (o : Option Int) : Bool :=
  match o with
  | some m => decide (m < 0)
  | none => false

/-- The check `if contains_character and len(contains_character) != 1` from
`crud.filter_strings`.  Note the Python truthiness: an empty string is falsy,
so `contains_character = ""` skips this check entirely. -/
def badContainsChar (o : Option (List Char)) : Bool :=
  match o with
  | some c => !c.isEmpty && decide (c.length ≠ 1)
  | none => false

/-- `AnalyzedString.value.ilike('%c%')`: case-insensitive containment (the
parser only ever supplies single letters, so no wildcard escaping arises). -/
def ilikeContains (needle : List Char) (hay : List Char) : Bool :=
  containsSeq (needle.map Char.toLower) (hay.map Char.toLower)

/-- The SQL predicate built by `crud.filter_strings`: the conjunction of the
conditions for every filter that is not `None`. -/
def recordMatches (r : StoredString) (ip : Option Bool)
    (minl maxl wc : Option Int) (cc : Option (List Char)) : Bool :=
  (match ip with | some b => r.is_palindrome == b | none => true) &&
  (match minl with | some m => decide (m ≤ r.length) | none => true) &&
  (match maxl with | some m => decide (r.length ≤ m) | none => true) &&
  (match wc with | some w => r.word_count == w | none => true) &&
  (match cc with | some c => ilikeContains c r.value | none => true)

/-- `filter_strings` from `src/app/crud.py`: validate the parameters in
source order (each failure is an HTTP 400 with the given detail string),
then evaluate the predicate over the stored records with
`offset`/`limit` pagination.  The defaults in the source are `limit=100`,
`offset=0`; the echoed applied-filters dictionary (second component of the
Python return value) restates the arguments and is not modelled. -/
def filter_strings (db : List StoredString) (ip : Option Bool)
    (minl maxl wc : Option Int) (cc : Option (List Char))
    (limit offset : Nat) : Except String (List StoredString) :=
  if optNeg minl then .error "min_length must be a non-negative integer"
  else if optNeg maxl then .error "max_length must be a non-negative integer"
  else if optNeg wc then .error "word_count must be a non-negative integer"
  else if badContainsChar cc then .error "contains_character must be a single character"
  else .ok (((db.filter fun r => recordMatches r ip minl maxl wc cc).drop offset).take limit)

/-- Did `filter_strings` fail with a client error (`InvalidFilter`)? -/
def isErr (r : Except String (List StoredString)) : Bool :=
  match r with
  | .error _ => true
  | .ok _ => false

/-! ### Helper lemmas about the parser rules -/

theorem applyPalindrome_min (q : List Char) (f : Filters) :
    (applyPalindrome q f).min_length = f.min_length := by
  unfold applyPalindrome; split <;> rfl

theorem applyPalindrome_max (q : List Char) (f : Filters) :
    (applyPalindrome q f).max_length = f.max_length := by
  unfold applyPalindrome; split <;> rfl

theorem applyWordCount_min (q : List Char) (f : Filters) :
    (applyWordCount q f).min_length = f.min_length := by
  cases h1 : scanWordCount q with
  | none => simp [applyWordCount, h1]
  | some g => cases h2 : extract_number g <;> simp [applyWordCount, h1, h2]

theorem applyWordCount_max (q : List Char) (f : Filters) :
    (applyWordCount q f).max_length = f.max_length := by
  cases h1 : scanWordCount q with
  | none => simp [applyWordCount, h1]
  | some g => cases h2 : extract_number g <;> simp [applyWordCount, h1, h2]

theorem applyLengthGt_max (q : List Char) (f : Filters) :
    (applyLengthGt q f).max_length = f.max_length := by
  unfold applyLengthGt; cases scanLengthGt q <;> rfl

theorem applyLengthGt_min_of_some (q : List Char) (f : Filters) (n : Nat)
    (h : scanLengthGt q = some n) :
    (applyLengthGt q f).min_length = some ((n : Int) + 1) := by
  unfold applyLengthGt; rw [h]

theorem applyLengthLt_min (q : List Char) (f : Filters) :
    (applyLengthLt q f).min_length = f.min_length := by
  unfold applyLengthLt; cases scanLengthLt q <;> rfl

theorem applyLengthLt_max_of_some (q : List Char) (f : Filters) (n : Nat)
    (h : scanLengthLt q = some n) :
    (applyLengthLt q f).max_length = some ((n : Int) - 1) := by
  unfold applyLengthLt; rw [h]

theorem applyLengthEq_min_of_some (q : List Char) (f : Filters) (n : Nat)
    (h : scanLengthEq q = some n) :
    (applyLengthEq q f).min_length = some (n : Int) := by
  unfold applyLengthEq; rw [h]

theorem applyLengthEq_max_of_some (q : List Char) (f : Filters) (n : Nat)
    (h : scanLengthEq q = some n) :
    (applyLengthEq q f).max_length = some (n : Int) := by
  unfold applyLengthEq; rw [h]

theorem applyLengthEq_min_of_none (q : List Char) (f : Filters)
    (h : scanLengthEq q = none) :
    (applyLengthEq q f).min_length = f.min_length := by
  unfold applyLengthEq; rw [h]

theorem applyLengthEq_max_of_none (q : List Char) (f : Filters)
    (h : scanLengthEq q = none) :
    (applyLengthEq q f).max_length = f.max_length := by
  unfold applyLengthEq; rw [h]

theorem applyContainsChar_min (q : List Char) (f : Filters) :
    (applyContainsChar q f).min_length = f.min_length := by
  unfold applyContainsChar; cases scanContainsChar q <;> rfl

theorem applyContainsChar_max (q : List Char) (f : Filters) :
    (applyContainsChar q f).max_length = f.max_length := by
  unfold applyContainsChar; cases scanContainsChar q <;> rfl

theorem applyVowelRules_min (q : List Char) (f : Filters) :
    (applyVowelRules q f).min_length = f.min_length := by
  unfold applyVowelRules; split <;> [rfl; split <;> rfl]

theorem applyVowelRules_max (q : List Char) (f : Filters) :
    (applyVowelRules q f).max_length = f.max_length := by
  unfold applyVowelRules; split <;> [rfl; split <;> rfl]

theorem applyVowelRules_first (q : List Char) (f : Filters)
    (h : hasVowelPhrase "first".toList q = true) :
    (applyVowelRules q f).contains_character = some 'a' := by
  unfold applyVowelRules; rw [if_pos h]

theorem applyVowelRules_last (q : List Char) (f : Filters)
    (h1 : hasVowelPhrase "first".toList q = false)
    (h2 : hasVowelPhrase "last".toList q = true) :
    (applyVowelRules q f).contains_character = some 'u' := by
  unfold applyVowelRules
  rw [h1, h2]
  simp

/-! Identity lemmas: a rule whose pattern does not match leaves the filter
dictionary unchanged. -/

theorem applyPalindrome_id (q : List Char) (f : Filters)
    (h : hasPalindromeWord q = false) : applyPalindrome q f = f := by
  unfold applyPalindrome; rw [if_neg (by simp [h])]

theorem applyWordCount_id (q : List Char) (f : Filters)
    (h : scanWordCount q = none) : applyWordCount q f = f := by
  unfold applyWordCount; rw [h]

theorem applyLengthGt_id (q : List Char) (f : Filters)
    (h : scanLengthGt q = none) : applyLengthGt q f = f := by
  unfold applyLengthGt; rw [h]

theorem applyLengthLt_id (q : List Char) (f : Filters)
    (h : scanLengthLt q = none) : applyLengthLt q f = f := by
  unfold applyLengthLt; rw [h]

theorem applyLengthEq_id (q : List Char) (f : Filters)
    (h : scanLengthEq q = none) : applyLengthEq q f = f := by
  unfold applyLengthEq; rw [h]

theorem applyContainsChar_id (q : List Char) (f : Filters)
    (h : scanContainsChar q = none) : applyContainsChar q f = f := by
  unfold applyContainsChar; rw [h]

theorem applyVowelRules_id (q : List Char) (f : Filters)
    (h1 : hasVowelPhrase "first".toList q = false)
    (h2 : hasVowelPhrase "last".toList q = false) : applyVowelRules q f = f := by
  unfold applyVowelRules
  rw [h1, h2]
  simp

theorem Filters.ne_empty_of_min (f : Filters) (x : Int)
    (h : f.min_length = some x) : f ≠ Filters.empty := by
  intro he
  rw [he] at h
  exact Option.noConfusion h

theorem Filters.ne_empty_of_max (f : Filters) (x : Int)
    (h : f.max_length = some x) : f ≠ Filters.empty := by
  intro he
  rw [he] at h
  exact Option.noConfusion h

theorem Filters.ne_empty_of_contains (f : Filters) (c : Char)
    (h : f.contains_character = some c) : f ≠ Filters.empty := by
  intro he
  rw [he] at h
  exact Option.noConfusion h

theorem parse_ok_of_ne_empty (query : List Char) (hq : query ≠ [])
    (h : parsedFilters (normQuery query) ≠ Filters.empty) :
    parse_natural_language query = .ok (parsedFilters (normQuery query)) := by
  unfold parse_natural_language
  rw [if_neg (by simp [List.isEmpty_iff, hq]), if_neg h]

theorem parse_err_unparseable (query : List Char) (hq : query ≠ [])
    (h : parsedFilters (normQuery query) = Filters.empty) :
    parse_natural_language query = .error .unparseable := by
  unfold parse_natural_language
  rw [if_neg (by simp [List.isEmpty_iff, hq]), if_pos h]

theorem parsedFilters_min_of_scanEq (q : List Char) (n : Nat)
    (h : scanLengthEq q = some n) :
    (parsedFilters q).min_length = some (n : Int) := by
  unfold parsedFilters
  rw [applyVowelRules_min, applyContainsChar_min, applyLengthEq_min_of_some _ _ _ h]

theorem parsedFilters_max_of_scanEq (q : List Char) (n : Nat)
    (h : scanLengthEq q = some n) :
    (parsedFilters q).max_length = some (n : Int) := by
  unfold parsedFilters
  rw [applyVowelRules_max, applyContainsChar_max, applyLengthEq_max_of_some _ _ _ h]

theorem parsedFilters_min_of_scanGt (q : List Char) (n : Nat)
    (hgt : scanLengthGt q = some n) (heq : scanLengthEq q = none) :
    (parsedFilters q).min_length = some ((n : Int) + 1) := by
  unfold parsedFilters
  rw [applyVowelRules_min, applyContainsChar_min, applyLengthEq_min_of_none _ _ heq,
    applyLengthLt_min, applyLengthGt_min_of_some _ _ _ hgt]

theorem parsedFilters_max_of_scanLt (q : List Char) (n : Nat)
    (hlt : scanLengthLt q = some n) (heq : scanLengthEq q = none) :
    (parsedFilters q).max_length = some ((n : Int) - 1) := by
  unfold parsedFilters
  rw [applyVowelRules_max, applyContainsChar_max, applyLengthEq_max_of_none _ _ heq,
    applyLengthLt_max_of_some _ _ _ hlt]

theorem parsedFilters_contains_of_first (q : List Char)
    (h : hasVowelPhrase "first".toList q = true) :
    (parsedFilters q).contains_character = some 'a' := by
  unfold parsedFilters
  rw [applyVowelRules_first _ _ h]

theorem parsedFilters_contains_of_last (q : List Char)
    (h1 : hasVowelPhrase "first".toList q = false)
    (h2 : hasVowelPhrase "last".toList q = true) :
    (parsedFilters q).contains_character = some 'u' := by
  unfold parsedFilters
  rw [applyVowelRules_last _ _ h1 h2]

theorem parsedFilters_empty_of_no_rules (q : List Char)
    (h1 : hasPalindromeWord q = false) (h2 : scanWordCount q = none)
    (h3 : scanLengthGt q = none) (h4 : scanLengthLt q = none)
    (h5 : scanLengthEq q = none) (h6 : scanContainsChar q = none)
    (h7 : hasVowelPhrase "first".toList q = false)
    (h8 : hasVowelPhrase "last".toList q = false) :
    parsedFilters q = Filters.empty := by
  unfold parsedFilters
  rw [applyPalindrome_id _ _ h1, applyWordCount_id _ _ h2, applyLengthGt_id _ _ h3,
    applyLengthLt_id _ _ h4, applyLengthEq_id _ _ h5, applyContainsChar_id _ _ h6,
    applyVowelRules_id _ _ h7 h8]

/-! Scanners cannot match in the empty query, so a successful scan of the
normalized query implies the raw query was non-empty. -/

theorem ne_nil_of_scanEq (query : List Char) (n : Nat)
    (h : scanLengthEq (normQuery query) = some n) : query ≠ [] := by
  intro he
  subst he
  have hz : scanLengthEq (normQuery []) = none := rfl
  rw [hz] at h
  exact Option.noConfusion h

theorem ne_nil_of_scanGt (query : List Char) (n : Nat)
    (h : scanLengthGt (normQuery query) = some n) : query ≠ [] := by
  intro he
  subst he
  have hz : scanLengthGt (normQuery []) = none := rfl
  rw [hz] at h
  exact Option.noConfusion h

theorem ne_nil_of_scanLt (query : List Char) (n : Nat)
    (h : scanLengthLt (normQuery query) = some n) : query ≠ [] := by
  intro he
  subst he
  have hz : scanLengthLt (normQuery []) = none := rfl
  rw [hz] at h
  exact Option.noConfusion h

theorem ne_nil_of_first (query : List Char)
    (h : hasVowelPhrase "first".toList (normQuery query) = true) : query ≠ [] := by
  intro he
  subst he
  have hz : hasVowelPhrase "first".toList (normQuery []) = false := rfl
  rw [hz] at h
  exact Bool.noConfusion h

theorem ne_nil_of_last (query : List Char)
    (h : hasVowelPhrase "last".toList (normQuery query) = true) : query ≠ [] := by
  intro he
  subst he
  have hz : hasVowelPhrase "last".toList (normQuery []) = false := rfl
  rw [hz] at h
  exact Bool.noConfusion h

/-! ### Helper lemmas about the analyzer -/

theorem mem_pyStrip (c : Char) (l : List Char) (h : c ∈ pyStrip l) : c ∈ l := by
  unfold pyStrip at h
  rw [List.mem_reverse] at h
  have h2 := (List.dropWhile_sublist pySpace).subset h
  rw [List.mem_reverse] at h2
  exact (List.dropWhile_sublist pySpace).subset h2

theorem pySplitAux_length (l : List Char) : ∀ acc : List Char,
    (pySplitAux l acc).length =
      countTokensAux (!acc.isEmpty) l + (if acc.isEmpty then 0 else 1) := by
  induction l with
  | nil =>
    intro acc
    cases acc <;> simp [pySplitAux, countTokensAux]
  | cons c cs ih =>
    intro acc
    by_cases hc : pySpace c
    · cases acc with
      | nil => simp [pySplitAux, countTokensAux, hc, ih []]
      | cons a as =>
        simp [pySplitAux, countTokensAux, hc, ih []]
    · cases acc with
      | nil =>
        simp [pySplitAux, countTokensAux, hc, ih [c]]
        omega
      | cons a as =>
        simp [pySplitAux, countTokensAux, hc, ih (c :: a :: as)]

/-- The length of Python's `str.split()` result is the number of maximal
whitespace-delimited non-empty tokens. -/
theorem pySplit_length (l : List Char) : (pySplit l).length = countTokens l := by
  have h := pySplitAux_length l []
  simpa [pySplit, countTokens] using h

/-! ### Claim theorems -/

/-- Claim C1 (code evaluation at the failing input): for the query
`"all single word palindromic strings"`, `parse_natural_language` returns
only `{is_palindrome: true}`.  The `word_count` key is NOT set, contradicting
the spec's `{is_palindrome: true, word_count: 1}`: the `word_count` pattern
does match the phrase `"single word"`, but `extract_number` looks the words
up in `NUMBER_WORDS`, which has no entry for `"single"`, so the rule silently
sets nothing. -/
theorem claim_C1_single_word_sets_no_word_count :
    parse_natural_language "all single word palindromic strings".toList =
      .ok ⟨some true, none, none, none, none⟩ := by
  rfl

/-- Claim C2 (corrected): for every non-empty query on which none of the
eight parser rules fires, `parse_natural_language` fails with the
unparseable-query error; and `parse("gibberish")` does so.  (The claim's own
example query is refuted separately: its `"with no"` triggers the containment
rule.) -/
theorem claim_C2_no_rules_unparseable :
    (∀ query : List Char, query ≠ [] →
        hasPalindromeWord (normQuery query) = false →
        scanWordCount (normQuery query) = none →
        scanLengthGt (normQuery query) = none →
        scanLengthLt (normQuery query) = none →
        scanLengthEq (normQuery query) = none →
        scanContainsChar (normQuery query) = none →
        hasVowelPhrase "first".toList (normQuery query) = false →
        hasVowelPhrase "last".toList (normQuery query) = false →
        parse_natural_language query = .error .unparseable) ∧
    parse_natural_language "gibberish".toList = .error .unparseable := by
  constructor
  · intro query hq h1 h2 h3 h4 h5 h6 h7 h8
    exact parse_err_unparseable query hq
      (parsedFilters_empty_of_no_rules _ h1 h2 h3 h4 h5 h6 h7 h8)
  · rfl

/-- Claim C2, witness: the general part applied to the concrete query
`"nonsense text"`, on which no rule fires. -/
theorem claim_C2_no_rules_unparseable_witness :
    parse_natural_language "nonsense text".toList = .error .unparseable :=
  claim_C2_no_rules_unparseable.1 "nonsense text".toList (by decide) (by decide)
    (by decide) (by decide) (by decide) (by decide) (by decide) (by decide)
    (by decide)

/-- Claim C2, counterexample: the claim's concrete example is false on the
code.  `parse("gibberish query with no rules")` does not fail: the containment
pattern matches `"with n"` (the verb `with`, whitespace, then the letter `n`
of `no`), so the parser returns `{contains_character: 'n'}`. -/
theorem claim_C2_counterexample :
    parse_natural_language "gibberish query with no rules".toList =
      .ok ⟨none, none, none, none, some 'n'⟩ := by
  rfl

/-- Claim C3: a `longer|greater|more than N` match sets `min_length = N + 1`
and a `shorter|less than N` match sets `max_length = N - 1` (provided the
`exactly`-rule, which runs later and overwrites both bounds, does not fire),
with no clamping of a negative result; `parse("strings longer than 5")` is
exactly `{min_length: 6}`, and `parse("shorter than 0")` is exactly
`{max_length: -1}`. -/
theorem claim_C3_strict_length_bounds :
    (∀ (query : List Char) (n : Nat),
        scanLengthGt (normQuery query) = some n →
        scanLengthEq (normQuery query) = none →
        parse_natural_language query = .ok (parsedFilters (normQuery query)) ∧
        (parsedFilters (normQuery query)).min_length = some ((n : Int) + 1)) ∧
    (∀ (query : List Char) (n : Nat),
        scanLengthLt (normQuery query) = some n →
        scanLengthEq (normQuery query) = none →
        parse_natural_language query = .ok (parsedFilters (normQuery query)) ∧
        (parsedFilters (normQuery query)).max_length = some ((n : Int) - 1)) ∧
    parse_natural_language "strings longer than 5".toList =
      .ok ⟨none, none, some 6, none, none⟩ ∧
    parse_natural_language "shorter than 0".toList =
      .ok ⟨none, none, none, some (-1), none⟩ := by
  refine ⟨?_, ?_, rfl, rfl⟩
  · intro query n hgt heq
    have hmin := parsedFilters_min_of_scanGt _ n hgt heq
    exact ⟨parse_ok_of_ne_empty query (ne_nil_of_scanGt query n hgt)
      (Filters.ne_empty_of_min _ _ hmin), hmin⟩
  · intro query n hlt heq
    have hmax := parsedFilters_max_of_scanLt _ n hlt heq
    exact ⟨parse_ok_of_ne_empty query (ne_nil_of_scanLt query n hlt)
      (Filters.ne_empty_of_max _ _ hmax), hmax⟩

/-- Claim C3, witness: the two general parts at the queries
`"more than 9"` and `"less than 0"` (the latter exhibiting the unclamped
negative bound). -/
theorem claim_C3_strict_length_bounds_witness :
    (parse_natural_language "more than 9".toList =
        .ok (parsedFilters (normQuery "more than 9".toList)) ∧
      (parsedFilters (normQuery "more than 9".toList)).min_length =
        some ((9 : Int) + 1)) ∧
    (parse_natural_language "less than 0".toList =
        .ok (parsedFilters (normQuery "less than 0".toList)) ∧
      (parsedFilters (normQuery "less than 0".toList)).max_length =
        some ((0 : Int) - 1)) :=
  ⟨claim_C3_strict_length_bounds.1 "more than 9".toList 9 (by decide) (by decide),
   claim_C3_strict_length_bounds.2.1 "less than 0".toList 0 (by decide) (by decide)⟩

/-- Claim C4: an `exactly|precisely|of N characters|letters` match sets BOTH
`min_length = N` and `max_length = N` (it runs after and overwrites the
strict-bound rules, and no later rule touches the bounds), and
`parse("exactly 4 characters")` is exactly `{min_length: 4, max_length: 4}`. -/
theorem claim_C4_exact_length :
    (∀ (query : List Char) (n : Nat),
        scanLengthEq (normQuery query) = some n →
        parse_natural_language query = .ok (parsedFilters (normQuery query)) ∧
        (parsedFilters (normQuery query)).min_length = some (n : Int) ∧
        (parsedFilters (normQuery query)).max_length = some (n : Int)) ∧
    parse_natural_language "exactly 4 characters".toList =
      .ok ⟨none, none, some 4, some 4, none⟩ := by
  refine ⟨?_, rfl⟩
  intro query n h
  have hmin := parsedFilters_min_of_scanEq _ n h
  have hmax := parsedFilters_max_of_scanEq _ n h
  exact ⟨parse_ok_of_ne_empty query (ne_nil_of_scanEq query n h)
    (Filters.ne_empty_of_min _ _ hmin), hmin, hmax⟩

/-- Claim C4, witness: the general part at the query `"of 12 letters"`. -/
theorem claim_C4_exact_length_witness :
    parse_natural_language "of 12 letters".toList =
      .ok (parsedFilters (normQuery "of 12 letters".toList)) ∧
    (parsedFilters (normQuery "of 12 letters".toList)).min_length =
      some ((12 : Nat) : Int) ∧
    (parsedFilters (normQuery "of 12 letters".toList)).max_length =
      some ((12 : Nat) : Int) :=
  claim_C4_exact_length.1 "of 12 letters".toList 12 (by decide)

/-- Claim C9: the rules run in the fixed source order with later rules
overwriting earlier ones.  Whenever the `exactly N` pattern matches (in
particular alongside a `longer/shorter than` match), the final predicate
carries `min_length = max_length = N`; whenever `first vowel` is present,
`contains_character` is `'a'` (in particular alongside a containment match,
and also when `last vowel` is present too, since the `elif` makes
`first vowel` win); and when only `last vowel` is present,
`contains_character` is `'u'` (in particular alongside a containment match). -/
theorem claim_C9_rule_order_overwrites :
    (∀ (query : List Char) (m n : Nat),
        scanLengthGt (normQuery query) = some m →
        scanLengthEq (normQuery query) = some n →
        (parsedFilters (normQuery query)).min_length = some (n : Int) ∧
        (parsedFilters (normQuery query)).max_length = some (n : Int)) ∧
    (∀ (query : List Char) (m n : Nat),
        scanLengthLt (normQuery query) = some m →
        scanLengthEq (normQuery query) = some n →
        (parsedFilters (normQuery query)).min_length = some (n : Int) ∧
        (parsedFilters (normQuery query)).max_length = some (n : Int)) ∧
    (∀ (query : List Char) (c : Char),
        scanContainsChar (normQuery query) = some c →
        hasVowelPhrase "first".toList (normQuery query) = true →
        parse_natural_language query = .ok (parsedFilters (normQuery query)) ∧
        (parsedFilters (normQuery query)).contains_character = some 'a') ∧
    (∀ (query : List Char) (c : Char),
        scanContainsChar (normQuery query) = some c →
        hasVowelPhrase "first".toList (normQuery query) = false →
        hasVowelPhrase "last".toList (normQuery query) = true →
        parse_natural_language query = .ok (parsedFilters (normQuery query)) ∧
        (parsedFilters (normQuery query)).contains_character = some 'u') ∧
    (∀ query : List Char,
        hasVowelPhrase "first".toList (normQuery query) = true →
        hasVowelPhrase "last".toList (normQuery query) = true →
        (parsedFilters (normQuery query)).contains_character = some 'a') := by
  refine ⟨?_, ?_, ?_, ?_, ?_⟩
  · intro query m n _ heq
    exact ⟨parsedFilters_min_of_scanEq _ n heq, parsedFilters_max_of_scanEq _ n heq⟩
  · intro query m n _ heq
    exact ⟨parsedFilters_min_of_scanEq _ n heq, parsedFilters_max_of_scanEq _ n heq⟩
  · intro query c _ hfirst
    have hcc := parsedFilters_contains_of_first _ hfirst
    exact ⟨parse_ok_of_ne_empty query (ne_nil_of_first query hfirst)
      (Filters.ne_empty_of_contains _ _ hcc), hcc⟩
  · intro query c _ hfirst hlast
    have hcc := parsedFilters_contains_of_last _ hfirst hlast
    exact ⟨parse_ok_of_ne_empty query (ne_nil_of_last query hlast)
      (Filters.ne_empty_of_contains _ _ hcc), hcc⟩
  · intro query hfirst _
    exact parsedFilters_contains_of_first _ hfirst

/-- Claim C9, witness: the five parts at concrete queries combining the
competing phrases. -/
theorem claim_C9_rule_order_overwrites_witness :
    ((parsedFilters (normQuery "longer than 2 exactly 7 characters".toList)).min_length =
        some ((7 : Nat) : Int) ∧
      (parsedFilters (normQuery "longer than 2 exactly 7 characters".toList)).max_length =
        some ((7 : Nat) : Int)) ∧
    ((parsedFilters (normQuery "shorter than 9 exactly 3 letters".toList)).min_length =
        some ((3 : Nat) : Int) ∧
      (parsedFilters (normQuery "shorter than 9 exactly 3 letters".toList)).max_length =
        some ((3 : Nat) : Int)) ∧
    (parse_natural_language "containing x first vowel".toList =
        .ok (parsedFilters (normQuery "containing x first vowel".toList)) ∧
      (parsedFilters (normQuery "containing x first vowel".toList)).contains_character =
        some 'a') ∧
    (parse_natural_language "with b last vowel".toList =
        .ok (parsedFilters (normQuery "with b last vowel".toList)) ∧
      (parsedFilters (normQuery "with b last vowel".toList)).contains_character =
        some 'u') ∧
    (parsedFilters (normQuery "first vowel and last vowel".toList)).contains_character =
      some 'a' :=
  ⟨claim_C9_rule_order_overwrites.1 "longer than 2 exactly 7 characters".toList 2 7
      (by decide) (by decide),
   claim_C9_rule_order_overwrites.2.1 "shorter than 9 exactly 3 letters".toList 9 3
      (by decide) (by decide),
   claim_C9_rule_order_overwrites.2.2.1 "containing x first vowel".toList 'x'
      (by decide) (by decide),
   claim_C9_rule_order_overwrites.2.2.2.1 "with b last vowel".toList 'b'
      (by decide) (by decide) (by decide),
   claim_C9_rule_order_overwrites.2.2.2.2 "first vowel and last vowel".toList
      (by decide) (by decide)⟩

/-- Claim C5: `analyze(s).is_palindrome` is true iff the reduced form of `s`
(trimmed, lowercased, all characters outside `[a-z0-9]` removed) is non-empty
and equals its own reverse; an input whose characters are all
non-alphanumeric is not a palindrome; and `"racecar"` and `"Race, Car!"`
are palindromes while `"hello"` is not. -/
theorem claim_C5_palindrome :
    (∀ s : List Char,
        (analyzeString s).is_palindrome = true ↔
          reducedForm s ≠ [] ∧ reducedForm s = (reducedForm s).reverse) ∧
    (∀ s : List Char, (∀ c ∈ s, isLowerAlnum c.toLower = false) →
        (analyzeString s).is_palindrome = false) ∧
    (analyzeString "racecar".toList).is_palindrome = true ∧
    (analyzeString "Race, Car!".toList).is_palindrome = true ∧
    (analyzeString "hello".toList).is_palindrome = false := by
  refine ⟨?_, ?_, rfl, rfl, rfl⟩
  · intro s
    simp [analyzeString, reducedForm, List.isEmpty_iff]
  · intro s h
    have hred : ((pyStrip s).map Char.toLower).filter isLowerAlnum = [] := by
      apply List.filter_eq_nil_iff.mpr
      intro a ha
      rcases List.mem_map.mp ha with ⟨c, hc, rfl⟩
      simp [h c (mem_pyStrip c s hc)]
    simp [analyzeString, hred]

/-- Claim C5, witness: the all-non-alphanumeric part at the input `"?!,"`. -/
theorem claim_C5_palindrome_witness :
    (analyzeString "?!,".toList).is_palindrome = false :=
  claim_C5_palindrome.2.1 "?!,".toList (by decide)

/-- Claim C7: `analyze(s).word_count` is the number of maximal
whitespace-delimited non-empty tokens of the trimmed string, is `0` when the
trimmed string is empty, and `analyze("a b  c").word_count = 3`. -/
theorem claim_C7_word_count :
    (∀ s : List Char, (analyzeString s).word_count = countTokens (pyStrip s)) ∧
    (∀ s : List Char, pyStrip s = [] → (analyzeString s).word_count = 0) ∧
    (analyzeString "a b  c".toList).word_count = 3 := by
  refine ⟨?_, ?_, rfl⟩
  · intro s
    by_cases h : pyStrip s = []
    · simp [analyzeString, h, countTokens, countTokensAux]
    · simp [analyzeString, List.isEmpty_iff, h, pySplit_length]
  · intro s h
    simp [analyzeString, h]

/-- Claim C7, witness: the trimmed-empty part at the all-whitespace input
`"  "`. -/
theorem claim_C7_word_count_witness :
    (analyzeString "  ".toList).word_count = 0 :=
  claim_C7_word_count.2.1 "  ".toList (by decide)

/-- Claim C10: the analyzer's record is internally consistent: the counts of
`character_frequency_map` sum to `length`, the number of its keys equals
`unique_characters`, and every key (a single character by construction)
occurs in the trimmed string. -/
theorem claim_C10_consistency :
    ∀ s : List Char,
      (((analyzeString s).character_frequency_map.map Prod.snd).sum =
          (analyzeString s).length) ∧
      ((analyzeString s).character_frequency_map.length =
          (analyzeString s).unique_characters) ∧
      (∀ p ∈ (analyzeString s).character_frequency_map, p.1 ∈ pyStrip s) := by
  intro s
  refine ⟨?_, ?_, ?_⟩
  · simp only [analyzeString, List.map_map]
    simpa using List.sum_map_count_dedup_eq_length (pyStrip s)
  · simp [analyzeString]
  · intro p hp
    simp only [analyzeString, List.mem_map] at hp
    rcases hp with ⟨c, hc, rfl⟩
    exact List.mem_dedup.mp hc

/-- Claim C10, witness: the three parts at the input `"ab a"`, with the key
membership checked for the pair `('a', 2)`. -/
theorem claim_C10_consistency_witness :
    (((analyzeString "ab a".toList).character_frequency_map.map Prod.snd).sum =
        (analyzeString "ab a".toList).length) ∧
    (((analyzeString "ab a".toList).character_frequency_map.length =
        (analyzeString "ab a".toList).unique_characters)) ∧
    ('a', 2).1 ∈ pyStrip "ab a".toList :=
  ⟨(claim_C10_consistency "ab a".toList).1,
   (claim_C10_consistency "ab a".toList).2.1,
   (claim_C10_consistency "ab a".toList).2.2 ('a', 2) (by decide)⟩

/-- Claim C8: `text_to_number` gives digit sequences precedence (an all-digit
string is returned as its integer value), and compound number-word phrases
(hyphenated or joined with `and`) accumulate by summing tens/units into a
running value and multiplying it at a scale word: `"twenty one"` and
`"twenty-one"` give `21`, `"three hundred and twenty one"` gives `321`. -/
theorem claim_C8_text_to_number :
    (∀ ds : List Char, pyIsDigitStr ds = true → text_to_number ds = digitsToNat ds) ∧
    text_to_number "twenty one".toList = 21 ∧
    text_to_number "twenty-one".toList = 21 ∧
    text_to_number "three hundred and twenty one".toList = 321 := by
  refine ⟨?_, rfl, rfl, rfl⟩
  intro ds h
  unfold text_to_number
  rw [h]
  simp

/-- Claim C8, witness: the digit-precedence part at `"42"`. -/
theorem claim_C8_text_to_number_witness :
    text_to_number "42".toList = digitsToNat "42".toList :=
  claim_C8_text_to_number.1 "42".toList (by decide)

/-- Claim C6 (corrected): `filter_strings` validates before evaluating — a
present negative `min_length` fails with the `InvalidFilter` detail string;
present negative `max_length` / `word_count` values and a `contains_character`
that is non-empty and not exactly one character also fail (no records are
evaluated: an error is returned); and the negative `max_length = -1` produced
by the parser for `"shorter than 0"` is rejected here, not auto-corrected by
the parser.  (The empty-string `contains_character` case is excluded: Python's
truthiness check skips it — see the counterexample.) -/
theorem claim_C6_filter_validation :
    (∀ (db : List StoredString) (ip : Option Bool) (minl maxl wc : Option Int)
        (cc : Option (List Char)) (lim off : Nat) (m : Int),
        minl = some m → m < 0 →
        filter_strings db ip minl maxl wc cc lim off =
          .error "min_length must be a non-negative integer") ∧
    (∀ (db : List StoredString) (ip : Option Bool) (minl maxl wc : Option Int)
        (cc : Option (List Char)) (lim off : Nat) (m : Int),
        maxl = some m → m < 0 →
        isErr (filter_strings db ip minl maxl wc cc lim off) = true) ∧
    (∀ (db : List StoredString) (ip : Option Bool) (minl maxl wc : Option Int)
        (cc : Option (List Char)) (lim off : Nat) (m : Int),
        wc = some m → m < 0 →
        isErr (filter_strings db ip minl maxl wc cc lim off) = true) ∧
    (∀ (db : List StoredString) (ip : Option Bool) (minl maxl wc : Option Int)
        (cc : Option (List Char)) (lim off : Nat) (l : List Char),
        cc = some l → l ≠ [] → l.length ≠ 1 →
        isErr (filter_strings db ip minl maxl wc cc lim off) = true) ∧
    (parse_natural_language "shorter than 0".toList =
        .ok ⟨none, none, none, some (-1), none⟩ ∧
      filter_strings [] none none (some (-1)) none none 100 0 =
        .error "max_length must be a non-negative integer") := by
  refine ⟨?_, ?_, ?_, ?_, rfl, rfl⟩
  · intro db ip minl maxl wc cc lim off m hm hneg
    subst hm
    simp [filter_strings, optNeg, hneg]
  · intro db ip minl maxl wc cc lim off m hm hneg
    subst hm
    have hsm : optNeg (some m) = true := by simp [optNeg, hneg]
    by_cases h1 : optNeg minl = true
    · simp [filter_strings, h1, isErr]
    · simp [filter_strings, h1, hsm, isErr]
  · intro db ip minl maxl wc cc lim off m hm hneg
    subst hm
    have hsm : optNeg (some m) = true := by simp [optNeg, hneg]
    by_cases h1 : optNeg minl = true
    · simp [filter_strings, h1, isErr]
    · by_cases h2 : optNeg maxl = true
      · simp [filter_strings, h1, h2, isErr]
      · simp [filter_strings, h1, h2, hsm, isErr]
  · intro db ip minl maxl wc cc lim off l hl hne hlen
    subst hl
    have hbad : badContainsChar (some l) = true := by
      simp [badContainsChar, List.isEmpty_iff, hne, hlen]
    by_cases h1 : optNeg minl = true
    · simp [filter_strings, h1, isErr]
    · by_cases h2 : optNeg maxl = true
      · simp [filter_strings, h1, h2, isErr]
      · by_cases h3 : optNeg wc = true
        · simp [filter_strings, h1, h2, h3, isErr]
        · simp [filter_strings, h1, h2, h3, hbad, isErr]

/-- Claim C6, witness: the four validation parts at concrete arguments. -/
theorem claim_C6_filter_validation_witness :
    filter_strings [] none (some (-2)) none none none 5 0 =
      .error "min_length must be a non-negative integer" ∧
    isErr (filter_strings [] none none (some (-3)) none none 5 0) = true ∧
    isErr (filter_strings [] none none none (some (-1)) none 5 0) = true ∧
    isErr (filter_strings [] none none none none (some "ab".toList) 5 0) = true :=
  ⟨claim_C6_filter_validation.1 [] none (some (-2)) none none none 5 0 (-2) rfl
      (by decide),
   claim_C6_filter_validation.2.1 [] none none (some (-3)) none none 5 0 (-3) rfl
      (by decide),
   claim_C6_filter_validation.2.2.1 [] none none none (some (-1)) none 5 0 (-1) rfl
      (by decide),
   claim_C6_filter_validation.2.2.2.1 [] none none none none (some "ab".toList) 5 0
      "ab".toList rfl (by decide) (by decide)⟩

/-- Claim C6, counterexample: a `contains_character` that is present and not
exactly one character does NOT always fail — the empty string is falsy in
Python, so `if contains_character and len(contains_character) != 1` skips the
validation, the `ilike('%%')` condition is appended, and the call evaluates
normally. -/
theorem claim_C6_counterexample :
    filter_strings [⟨"ab".toList, 2, false, 1⟩] none none none none (some []) 100 0 =
      .ok [⟨"ab".toList, 2, false, 1⟩] ∧ ([] : List Char).length ≠ 1 := by
  exact ⟨rfl, by decide⟩

end StringAnalyzer
